import Mathlib

/-!
Shallow embedding of the pyblueiris client (src/blueiris.py) and proofs about
the properties its specification claims.

The client is an HTTP JSON command wrapper around a BlueIris server.  We model
Python/JSON values with a small mutual inductive type, HTTP responses as a
status code plus a decoded JSON body, and every client method as a pure
function of its inputs plus the server responses it consumes.  Places where
the Python code can raise an exception are modelled with `Except PyErr`.
-/

namespace BlueIris

/-- Python runtime exceptions that the modelled code paths can raise. -/
inductive PyErr where
  | keyError : PyErr
  | attributeError : PyErr
  | typeError : PyErr
  | valueError : PyErr
  | indexError : PyErr
  deriving DecidableEq, Repr

mutual
/-- A Python/JSON value as the client sees it: scalars, lists, string-keyed
dicts, and (for the envelopes built by `set_signal`/`ptz`) raw Enum member
objects, which are distinct from their numeric `.value`. -/
inductive PyVal where
  | pyNone : PyVal
  | pyBool (b : Bool) : PyVal
  | pyInt (n : Int) : PyVal
  | str (s : String) : PyVal
  | list (xs : PyList) : PyVal
  | dict (kvs : PyDict) : PyVal
  | enumMember (cls : String) (memberName : String) (value : Int) : PyVal
  deriving DecidableEq, Repr

/-- A Python list of `PyVal`s (spelt out so equality is derivable). -/
inductive PyList where
  | nil : PyList
  | cons (hd : PyVal) (tl : PyList) : PyList
  deriving DecidableEq, Repr

/-- A Python dict with string keys (the only key type the client uses). -/
inductive PyDict where
  | nil : PyDict
  | cons (key : String) (val : PyVal) (tl : PyDict) : PyDict
  deriving DecidableEq, Repr
end

/-- Build a `PyList` from a Lean list (notation helper only). -/
def PyList.ofList : List PyVal → PyList
  | [] => .nil
  | v :: vs => .cons v (PyList.ofList vs)

/-- Back to a Lean list. -/
def PyList.toList : PyList → List PyVal
  | .nil => []
  | .cons v vs => v :: vs.toList

/-- Build a `PyDict` from a Lean association list (notation helper only). -/
def PyDict.ofList : List (String × PyVal) → PyDict
  | [] => .nil
  | (k, v) :: kvs => .cons k v (PyDict.ofList kvs)

/-- `d[k]` / `d.get(k)` lookup on a Python dict (keys are unique in Python,
so first match is the match). -/
def PyDict.lookup : PyDict → String → Option PyVal
  | .nil, _ => Option.none
  | .cons k v tl, key => if k = key then some v else tl.lookup key

/-- The keys of a dict, in insertion order (what `for x in d` iterates). -/
def PyDict.keys : PyDict → List String
  | .nil => []
  | .cons k _ tl => k :: tl.keys

/-- Module-level sentinel `UNKNOWN_DICT = ...` of src/blueiris.py line 15:
a dict mapping the key "-1" to the empty string. -/
def UNKNOWN_DICT : PyVal := .dict (.cons "-1" (.str "") .nil)

/-- Module-level sentinel `UNKNOWN_LIST = ...` of src/blueiris.py line 16:
a one-element list holding `UNKNOWN_DICT`. -/
def UNKNOWN_LIST : PyVal := .list (.cons UNKNOWN_DICT .nil)

/-- Module-level sentinel `UNKNOWN_HASH = -1` (line 17). -/
def UNKNOWN_HASH : PyVal := .pyInt (-1)

/-- Module-level sentinel `UNKNOWN_STRING = "noname"` (line 18). -/
def UNKNOWN_STRING : String := "noname"

/-- Python subscripting `v[k]` with a string key: only dicts support it
(KeyError when the key is absent, TypeError on any other receiver). -/
def pySubscript (v : PyVal) (k : String) : Except PyErr PyVal :=
  match v with
  | .dict kvs =>
    match kvs.lookup k with
    | some x => .ok x
    | Option.none => .error .keyError
  | _ => .error .typeError

/-- Python `v.get(k, dflt)`: defined on dicts; every other receiver
(including `None`) raises AttributeError, as in `None.get(...)`. -/
def pyGet (v : PyVal) (k : String) (dflt : PyVal) : Except PyErr PyVal :=
  match v with
  | .dict kvs => .ok ((kvs.lookup k).getD dflt)
  | _ => .error .attributeError

/-- An HTTP response as the client consumes it: `r.status_code` and the
decoded JSON body `r.json()`. -/
structure HResp where
  status : Nat
  body : PyVal
  deriving DecidableEq, Repr

/-- `BlueIris.cmd` (src/blueiris.py lines 341-366), from the point where the
POST has produced response `r`:
a non-200 status returns an empty dict; otherwise `r.json()["data"]` is
returned when present; on KeyError the code falls back to `r.json()["result"]`
(which itself can raise an uncaught KeyError) and maps `"success"` to the
string "None" and anything else to the string "Error". -/
def cmdResult (r : HResp) : Except PyErr PyVal :=
  if r.status ≠ 200 then .ok (.dict .nil)
  else
    match r.body with
    | .dict kvs =>
      match kvs.lookup "data" with
      | some d => .ok d
      | Option.none =>
        match kvs.lookup "result" with
        | some res => if res = .str "success" then .ok (.str "None") else .ok (.str "Error")
        | Option.none => .error .keyError
    | _ => .error .typeError

/-! ### MD5 (RFC 1321), used by `BlueIris.generate_response` via `hashlib.md5` -/

/-- UTF-8 encoding of one character, as a list of byte values. -/
def utf8EncodeChar (c : Char) : List Nat :=
  let v := c.toNat
  if v < 128 then [v]
  else if v < 2048 then [192 + v / 64, 128 + v % 64]
  else if v < 65536 then [224 + v / 4096, 128 + (v / 64) % 64, 128 + v % 64]
  else [240 + v / 262144, 128 + (v / 4096) % 64, 128 + (v / 64) % 64, 128 + v % 64]

/-- UTF-8 encoding of a string (Python `s.encode("utf-8")`), as byte values. -/
def utf8Bytes (s : String) : List Nat := s.data.flatMap utf8EncodeChar

/-- Truncation to a 32-bit word. -/
def w32 (n : Nat) : Nat := n % 4294967296

/-- 32-bit left rotation (the argument is a 32-bit word). -/
def rotl32 (x s : Nat) : Nat := w32 ((x <<< s) ||| (x >>> (32 - s)))

/-- The 64 MD5 sine-derived constants K. -/
def md5K : List Nat :=
  [0xd76aa478, 0xe8c7b756, 0x242070db, 0xc1bdceee,
   0xf57c0faf, 0x4787c62a, 0xa8304613, 0xfd469501,
   0x698098d8, 0x8b44f7af, 0xffff5bb1, 0x895cd7be,
   0x6b901122, 0xfd987193, 0xa679438e, 0x49b40821,
   0xf61e2562, 0xc040b340, 0x265e5a51, 0xe9b6c7aa,
   0xd62f105d, 0x02441453, 0xd8a1e681, 0xe7d3fbc8,
   0x21e1cde6, 0xc33707d6, 0xf4d50d87, 0x455a14ed,
   0xa9e3e905, 0xfcefa3f8, 0x676f02d9, 0x8d2a4c8a,
   0xfffa3942, 0x8771f681, 0x6d9d6122, 0xfde5380c,
   0xa4beea44, 0x4bdecfa9, 0xf6bb4b60, 0xbebfbc70,
   0x289b7ec6, 0xeaa127fa, 0xd4ef3085, 0x04881d05,
   0xd9d4d039, 0xe6db99e5, 0x1fa27cf8, 0xc4ac5665,
   0xf4292244, 0x432aff97, 0xab9423a7, 0xfc93a039,
   0x655b59c3, 0x8f0ccc92, 0xffeff47d, 0x85845dd1,
   0x6fa87e4f, 0xfe2ce6e0, 0xa3014314, 0x4e0811a1,
   0xf7537e82, 0xbd3af235, 0x2ad7d2bb, 0xeb86d391]

/-- The 64 MD5 per-round left-rotation amounts. -/
def md5S : List Nat :=
  [7, 12, 17, 22, 7, 12, 17, 22, 7, 12, 17, 22, 7, 12, 17, 22,
   5, 9, 14, 20, 5, 9, 14, 20, 5, 9, 14, 20, 5, 9, 14, 20,
   4, 11, 16, 23, 4, 11, 16, 23, 4, 11, 16, 23, 4, 11, 16, 23,
   6, 10, 15, 21, 6, 10, 15, 21, 6, 10, 15, 21, 6, 10, 15, 21]

/-- MD5 padding: append the 0x80 byte, zero bytes up to 56 mod 64, then the
original bit length as a 64-bit little-endian quantity. -/
def md5Pad (msg : List Nat) : List Nat :=
  let len := msg.length
  let zeros := (119 - len % 64) % 64
  msg ++ [128] ++ List.replicate zeros 0 ++
    (List.range 8).map (fun i => (len * 8) >>> (8 * i) % 256)

/-- The 32-bit word `j` (0 ≤ j < 16) of a 64-byte block, little-endian. -/
def md5Word (blk : List Nat) (j : Nat) : Nat :=
  blk.getD (4 * j) 0 + 256 * blk.getD (4 * j + 1) 0 +
    65536 * blk.getD (4 * j + 2) 0 + 16777216 * blk.getD (4 * j + 3) 0

/-- One of the 64 MD5 rounds, acting on the state (A, B, C, D). -/
def md5Step (blk : List Nat) (st : Nat × Nat × Nat × Nat) (i : Nat) :
    Nat × Nat × Nat × Nat :=
  let a := st.1
  let b := st.2.1
  let c := st.2.2.1
  let d := st.2.2.2
  let fg : Nat × Nat :=
    if i < 16 then ((b &&& c) ||| ((b ^^^ 4294967295) &&& d), i)
    else if i < 32 then ((d &&& b) ||| ((d ^^^ 4294967295) &&& c), (5 * i + 1) % 16)
    else if i < 48 then (b ^^^ c ^^^ d, (3 * i + 5) % 16)
    else (c ^^^ (b ||| (d ^^^ 4294967295)), (7 * i) % 16)
  let tmp := w32 (fg.1 + a + md5K.getD i 0 + md5Word blk fg.2)
  (d, w32 (b + rotl32 tmp (md5S.getD i 0)), b, c)

/-- Process one 64-byte block: run the 64 rounds and add the result to the
incoming state, componentwise mod 2^32. -/
def md5Block (st : Nat × Nat × Nat × Nat) (blk : List Nat) :
    Nat × Nat × Nat × Nat :=
  let r := (List.range 64).foldl (md5Step blk) st
  (w32 (st.1 + r.1), w32 (st.2.1 + r.2.1), w32 (st.2.2.1 + r.2.2.1),
   w32 (st.2.2.2 + r.2.2.2))

/-- The MD5 initial state (A0, B0, C0, D0). -/
def md5Init : Nat × Nat × Nat × Nat :=
  (0x67452301, 0xefcdab89, 0x98badcfe, 0x10325476)

/-- Serialize the final state as 16 digest bytes (each word little-endian). -/
def digestBytes (a b c d : Nat) : List Nat :=
  [a % 256, a / 256 % 256, a / 65536 % 256, a / 16777216 % 256,
   b % 256, b / 256 % 256, b / 65536 % 256, b / 16777216 % 256,
   c % 256, c / 256 % 256, c / 65536 % 256, c / 16777216 % 256,
   d % 256, d / 256 % 256, d / 65536 % 256, d / 16777216 % 256]

/-- The MD5 digest of a byte sequence, as 16 bytes. -/
def md5Digest (msg : List Nat) : List Nat :=
  let padded := md5Pad msg
  let final := (List.range (padded.length / 64)).foldl
    (fun st i => md5Block st ((padded.drop (64 * i)).take 64)) md5Init
  digestBytes final.1 final.2.1 final.2.2.1 final.2.2.2

/-- One lower-case hexadecimal digit for a value below 16. -/
def hexDigit (n : Nat) : Char :=
  if n < 10 then Char.ofNat (48 + n) else Char.ofNat (87 + n)

/-- The two lower-case hex characters of one byte. -/
def byteHex (b : Nat) : List Char :=
  [hexDigit (b / 16 % 16), hexDigit (b % 16)]

/-- Lower-case hexadecimal rendering of a byte sequence
(Python `hashlib`'s `.hexdigest()` formatting). -/
def toHex (bytes : List Nat) : String := ⟨bytes.flatMap byteHex⟩

/-- `hashlib.md5(data).hexdigest()`: the MD5 digest in lower-case hex. -/
def md5HexDigest (msg : List Nat) : String := toHex (md5Digest msg)

/-! ### The session: `generate_response`, `login`, and the `__init__` tail -/

/-- Python `str()` of the values that reach a `format` slot in this client.
Scalars render as Python renders them; the container placeholders are never
relied on by a theorem (the formatted session token is always a string). -/
def pyStr : PyVal → String
  | .pyNone => "None"
  | .pyBool b => cond b "True" "False"
  | .pyInt n => toString n
  | .str s => s
  | .list _ => "<list>"
  | .dict _ => "<dict>"
  | .enumMember cls n _ => cls ++ "." ++ n

/-- `BlueIris.generate_response` (lines 167-170): the MD5 hex digest of the
UTF-8 bytes of `"user:session:password"` built with `str.format` from
`self.user`, `self.blueiris_session` and `self.password`. -/
def generate_response (user : String) (blueirisSession : PyVal) (password : String) : String :=
  md5HexDigest (utf8Bytes (user ++ ":" ++ pyStr blueirisSession ++ ":" ++ password))

/-- The authentication fields of the client object:
`self.blueiris_session` and `self.response`. -/
structure AuthState where
  blueiris_session : PyVal
  response : PyVal
  deriving DecidableEq, Repr

/-- Lines 138-139 of `__init__`: both fields start as `UNKNOWN_HASH`. -/
def initialAuthState : AuthState := ⟨UNKNOWN_HASH, UNKNOWN_HASH⟩

/-- `BlueIris.login` (lines 322-339).  `r1` answers the anonymous
`cmd: login` POST and `r2` the authenticated one.  The result is the updated
auth state together with the Python return value: the `data` payload on
success, `None` on every logged failure.  An `Except.error` is a raised
exception (`r.json()[k]` on a body without the key). -/
def login (user password : String) (st : AuthState) (r1 r2 : HResp) :
    Except PyErr (AuthState × PyVal) :=
  if r1.status ≠ 200 then .ok (st, .pyNone)
  else
    match pySubscript r1.body "session" with
    | .error e => .error e
    | .ok tok =>
      let st1 : AuthState :=
        { blueiris_session := tok
          response := .str (generate_response user tok password) }
      if r2.status ≠ 200 then .ok (st1, .pyNone)
      else
        match pySubscript r2.body "result" with
        | .error e => .error e
        | .ok res =>
          if res ≠ .str "success" then .ok (st1, .pyNone)
          else
            match pySubscript r2.body "data" with
            | .error e => .error e
            | .ok d => .ok (st1, d)

/-- The attributes `__init__` populates from the session info. -/
structure Attrs where
  name : PyVal
  profiles : PyVal
  am_admin : PyVal
  ptz_allowed : PyVal
  clips_allowed : PyVal
  schedules : PyVal
  version : PyVal
  deriving DecidableEq, Repr

/-- Lines 158-164 of `__init__`: read the attributes off `session_info` with
`.get` and the module sentinels as defaults.  When `login` returned `None`
(every failed handshake does), the very first `.get` raises AttributeError. -/
def initFromSessionInfo (info : PyVal) : Except PyErr Attrs := do
  let n ← pyGet info "system name" (.str UNKNOWN_STRING)
  let ps ← pyGet info "profiles" UNKNOWN_LIST
  let ad ← pyGet info "admin" (.pyBool false)
  let pt ← pyGet info "ptz" (.pyBool false)
  let cl ← pyGet info "clips" (.pyBool false)
  let sc ← pyGet info "schedules" UNKNOWN_LIST
  let ve ← pyGet info "version" (.str UNKNOWN_STRING)
  pure ⟨n, ps, ad, pt, cl, sc, ve⟩

/-- The tail of `BlueIris.__init__` (lines 155-165): run `login`, read the
attributes off its return value, then `update_status` (one more `cmd`,
answered by `rs`). -/
def clientInit (user password : String) (r1 r2 rs : HResp) :
    Except PyErr (AuthState × Attrs × PyVal) := do
  let sres ← login user password initialAuthState r1 r2
  let attrs ← initFromSessionInfo sres.2
  let status ← cmdResult rs
  pure (sres.1, attrs, status)

/-! ### The `Signal` and `PTZCommand` enumerations and the mutating calls -/

/-- The `Signal` enumeration (lines 23-26) in declaration order: RED = 0,
YELLOW = 2, GREEN = 1.  The pairs are the entries of `Signal.__members__`. -/
def signalMembers : List (String × Int) :=
  [("RED", 0), ("YELLOW", 2), ("GREEN", 1)]

/-- `Signal.has_value` (lines 28-35): a string is tested against the member
names; any other value is compared against the member values with Python
`==` (under which booleans equal 0 and 1). -/
def signalHasValue (v : PyVal) : Bool :=
  match v with
  | .str s => signalMembers.any (fun m => m.1 == s)
  | .pyInt n => signalMembers.any (fun m => m.2 == n)
  | .pyBool b => signalMembers.any (fun m => m.2 == (cond b 1 0))
  | _ => false

/-- `Signal.__members__.get(s)`: the member object itself, not its value. -/
def signalMemberObj (s : String) : PyVal :=
  match signalMembers.lookup s with
  | some v => .enumMember "Signal" s v
  | Option.none => .pyNone

/-- Observable outcome of one mutating client call: either exactly one
command was posted, or the call was absorbed into one log line. -/
inductive OpResult where
  | sent (cmd : String) (params : List (String × PyVal)) : OpResult
  | loggedError : OpResult
  | loggedWarning : OpResult
  deriving DecidableEq, Repr

/-- The command a call put on the network, if any. -/
def OpResult.network : OpResult → Option (String × List (String × PyVal))
  | .sent c ps => some (c, ps)
  | _ => Option.none

/-- `BlueIris.set_signal` (lines 268-277).  Note that for a string argument
the envelope value is `Signal.__members__.get(signal)` — the member object —
while for any other argument it is the raw value. -/
def set_signal (signal : PyVal) : OpResult :=
  if ¬ signalHasValue signal then .loggedError
  else
    match signal with
    | .str s => .sent "status" [("signal", signalMemberObj s)]
    | _ => .sent "status" [("signal", signal)]

/-- `BlueIris.set_schedule` (lines 279-284); `schedules` is the cached
`self._schedules` list. -/
def set_schedule (schedules : List PyVal) (schedule_name : PyVal) : OpResult :=
  if schedule_name ∉ schedules then .loggedError
  else .sent "status" [("schedule", schedule_name)]

/-- `BlueIris.set_pofile` (sic, lines 286-291); `profiles` is the cached
`self._profiles` list. -/
def set_pofile (profiles : List PyVal) (profile_name : PyVal) : OpResult :=
  if profile_name ∉ profiles then .loggedError
  else .sent "status" [("profile", profile_name)]

/-- `BlueIris.toggle_schedule_hold` (lines 293-295). -/
def toggle_schedule_hold : OpResult :=
  .sent "status" [("schedule", .pyInt (-1))]

/-- The `PTZCommand` enumeration (lines 38-93), `__members__` in declaration
order; `CENTER = HOME = 4` makes HOME an alias with the same value. -/
def ptzMembers : List (String × Int) :=
  [("PAN_LEFT", 0), ("PAN_RIGHT", 1), ("TILT_UP", 2), ("TILT_DOWN", 3),
   ("CENTER", 4), ("HOME", 4), ("ZOOM_IN", 5), ("ZOOM_OUT", 6),
   ("POWER_50", 8), ("POWER_60", 9), ("POWER_OUTDOOR", 10),
   ("BRIGHTNESS_0", 11), ("BRIGHTNESS_1", 12), ("BRIGHTNESS_2", 13),
   ("BRIGHTNESS_3", 14), ("BRIGHTNESS_4", 15), ("BRIGHTNESS_5", 16),
   ("BRIGHTNESS_6", 17), ("BRIGHTNESS_7", 18), ("BRIGHTNESS_8", 19),
   ("BRIGHTNESS_9", 20), ("BRIGHTNESS_10", 21), ("BRIGHTNESS_11", 22),
   ("BRIGHTNESS_12", 23), ("BRIGHTNESS_13", 24), ("BRIGHTNESS_14", 25),
   ("BRIGHTNESS_15", 26), ("CONTRAST_0", 27), ("CONTRAST_1", 28),
   ("CONTRAST_2", 29), ("CONTRAST_3", 30), ("CONTRAST_4", 31),
   ("CONTRAST_5", 32), ("CONTRAST_6", 33), ("IR_ON", 34), ("IR_OFF", 35),
   ("PRESET_1", 101), ("PRESET_2", 102), ("PRESET_3", 103),
   ("PRESET_4", 104), ("PRESET_5", 105), ("PRESET_6", 106),
   ("PRESET_7", 107), ("PRESET_8", 108), ("PRESET_9", 109),
   ("PRESET_10", 110), ("PRESET_11", 111), ("PRESET_12", 112),
   ("PRESET_13", 113), ("PRESET_14", 114), ("PRESET_15", 115),
   ("PRESET_16", 116), ("PRESET_17", 117), ("PRESET_18", 118),
   ("PRESET_19", 119), ("PRESET_20", 120)]

/-- `PTZCommand.has_value` (lines 95-102), same shape as `Signal.has_value`. -/
def ptzHasValue (v : PyVal) : Bool :=
  match v with
  | .str s => ptzMembers.any (fun m => m.1 == s)
  | .pyInt n => ptzMembers.any (fun m => m.2 == n)
  | .pyBool b => ptzMembers.any (fun m => m.2 == (cond b 1 0))
  | _ => false

/-- `PTZCommand.__members__.get(s)`: the member object, not its value. -/
def ptzMemberObj (s : String) : PyVal :=
  match ptzMembers.lookup s with
  | some v => .enumMember "PTZCommand" s v
  | Option.none => .pyNone

/-- `BlueIris.ptz` (lines 297-307); `camcodes` is the cached
`self._camcodes` list. -/
def ptz (camcodes : List PyVal) (camera_code : PyVal) (ptz_action : PyVal) :
    OpResult :=
  if camera_code ∉ camcodes then .loggedError
  else if ¬ ptzHasValue ptz_action then .loggedError
  else
    match ptz_action with
    | .str s =>
      .sent "ptz" [("camera", camera_code), ("button", ptzMemberObj s), ("updown", .pyInt 0)]
    | _ =>
      .sent "ptz" [("camera", camera_code), ("button", ptz_action), ("updown", .pyInt 0)]

/-- `BlueIris.trigger` (lines 309-316): the admin check comes first and logs
a warning; only then is the camera code validated (error log). -/
def trigger (am_admin : Bool) (camcodes : List PyVal) (camera_code : PyVal) :
    OpResult :=
  if ¬ am_admin then .loggedWarning
  else if camera_code ∉ camcodes then .loggedError
  else .sent "trigger" [("camera", camera_code)]

/-! ### The lazily cached collections -/

/-- The items `for cam in x` iterates: list elements, dict keys (as
strings), or the characters of a string; other values are not iterable. -/
def pyIterItems (v : PyVal) : Except PyErr (List PyVal) :=
  match v with
  | .list xs => .ok xs.toList
  | .dict kvs => .ok (kvs.keys.map PyVal.str)
  | .str s => .ok (s.data.map (fun c => PyVal.str (String.mk [c])))
  | _ => .error .typeError

/-- The cached-collection fields of the client
(`_camlist`, `_camcodes`, `_camnames`, `_alertlist`, `_cliplist`, `_log`). -/
structure CState where
  camlist : PyVal
  camcodes : List PyVal
  camnames : List PyVal
  alertlist : PyVal
  cliplist : PyVal
  logCache : PyVal
  deriving DecidableEq, Repr

/-- Lines 141-147 of `__init__`: every cache starts at its sentinel. -/
def initialCState : CState :=
  ⟨UNKNOWN_LIST, [], [], UNKNOWN_LIST, UNKNOWN_LIST, UNKNOWN_LIST⟩

/-- `BlueIris.update_camlist` (lines 176-183): store the `camlist` command
result and rebuild `_camcodes` / `_camnames` from the `optionValue` /
`optionDisplay` fields of its entries.  `resp` is what `cmd "camlist"`
returned. -/
def update_camlist (st : CState) (resp : PyVal) : Except PyErr CState :=
  match pyIterItems resp with
  | .error e => .error e
  | .ok items =>
    match items.mapM (fun cam => pyGet cam "optionValue" .pyNone) with
    | .error e => .error e
    | .ok codes =>
      match items.mapM (fun cam => pyGet cam "optionDisplay" .pyNone) with
      | .error e => .error e
      | .ok names =>
        .ok { st with camlist := resp, camcodes := codes, camnames := names }

/-- `BlueIris.update_alertlist` (lines 189-191); the command is sent with
the parameter `camera: index`. -/
def update_alertlist (st : CState) (resp : PyVal) : CState :=
  { st with alertlist := resp }

/-- `BlueIris.update_cliplist` (lines 185-187). -/
def update_cliplist (st : CState) (resp : PyVal) : CState :=
  { st with cliplist := resp }

/-- `BlueIris.update_log` (lines 193-195). -/
def update_log (st : CState) (resp : PyVal) : CState :=
  { st with logCache := resp }

/-- Property `log` (lines 207-212): fetch only while `_log` is the
`UNKNOWN_LIST` sentinel.  `resp` is what a fetch would store and the `Nat`
counts the POSTs this access performs. -/
def logRead (st : CState) (resp : PyVal) : PyVal × CState × Nat :=
  if st.logCache = UNKNOWN_LIST then
    let st1 := update_log st resp
    (st1.logCache, st1, 1)
  else (st.logCache, st, 0)

/-- Property `all_alerts` (lines 231-236), same pattern on `_alertlist`. -/
def allAlertsRead (st : CState) (resp : PyVal) : PyVal × CState × Nat :=
  if st.alertlist = UNKNOWN_LIST then
    let st1 := update_alertlist st resp
    (st1.alertlist, st1, 1)
  else (st.alertlist, st, 0)

/-- Property `all_clips` (lines 238-243), same pattern on `_cliplist`. -/
def allClipsRead (st : CState) (resp : PyVal) : PyVal × CState × Nat :=
  if st.cliplist = UNKNOWN_LIST then
    let st1 := update_cliplist st resp
    (st1.cliplist, st1, 1)
  else (st.cliplist, st, 0)

/-- Property `cameras` (lines 224-229): fetch while `_camlist` is the
sentinel, then return `dict(zip(_camcodes, _camnames))`, modelled as the
zipped pair list. -/
def camerasRead (st : CState) (resp : PyVal) :
    Except PyErr (List (PyVal × PyVal) × CState × Nat) :=
  if st.camlist = UNKNOWN_LIST then
    match update_camlist st resp with
    | .error e => .error e
    | .ok st1 => .ok (st1.camcodes.zip st1.camnames, st1, 1)
  else .ok (st.camcodes.zip st.camnames, st, 0)

/-! ### The `profile` accessor -/

/-- The value of a nonempty all-digit character list, else `none`. -/
def digitsVal (cs : List Char) : Option Nat :=
  match cs with
  | [] => Option.none
  | _ =>
    cs.foldl
      (fun acc c =>
        match acc with
        | Option.none => Option.none
        | some n => if c.isDigit then some (10 * n + (c.toNat - 48)) else Option.none)
      (some 0)

/-- Python `int(x)` for the values a status field can hold: ints pass
through, booleans become 0/1, strings parse as an optionally signed decimal
literal (ValueError otherwise); other types raise TypeError. -/
def pyIntOf (v : PyVal) : Except PyErr Int :=
  match v with
  | .pyInt n => .ok n
  | .pyBool b => .ok (cond b 1 0)
  | .str s =>
    (match s.data with
     | '-' :: rest =>
       match digitsVal rest with
       | some n => .ok (-(n : Int))
       | Option.none => .error .valueError
     | '+' :: rest =>
       match digitsVal rest with
       | some n => .ok (n : Int)
       | Option.none => .error .valueError
     | cs =>
       match digitsVal cs with
       | some n => .ok (n : Int)
       | Option.none => .error .valueError)
  | _ => .error .typeError

/-- Python list subscripting `l[i]` with an int index: negative indices are
relative to the end, out-of-range raises IndexError. -/
def pyIndex (l : List PyVal) (i : Int) : Except PyErr PyVal :=
  let j : Int := if i < 0 then (l.length : Int) + i else i
  if h : 0 ≤ j ∧ j < (l.length : Int) then
    .ok (l.get ⟨j.toNat, by omega⟩)
  else .error .indexError

/-- Property `profile` (lines 252-258): parse the status field `profile`
(defaulting to -1), map -1 to the "Undefined" sentinel, and only otherwise
index the cached `_profiles` list. -/
def profileRead (status : PyVal) (profiles : List PyVal) : Except PyErr PyVal :=
  match pyGet status "profile" (.pyInt (-1)) with
  | .error e => .error e
  | .ok raw =>
    match pyIntOf raw with
    | .error e => .error e
    | .ok profile_id =>
      if profile_id = -1 then .ok (.str "Undefined")
      else pyIndex profiles profile_id

/-! ### Decidability and hex-character helpers for the theorems -/

instance {ε α : Type} [DecidableEq ε] [DecidableEq α] :
    DecidableEq (Except ε α) := fun x y =>
  match x, y with
  | .error a, .error b =>
    if h : a = b then .isTrue (by rw [h])
    else .isFalse (fun hh => by cases hh; exact h rfl)
  | .error _, .ok _ => .isFalse (fun hh => by cases hh)
  | .ok _, .error _ => .isFalse (fun hh => by cases hh)
  | .ok a, .ok b =>
    if h : a = b then .isTrue (by rw [h])
    else .isFalse (fun hh => by cases hh; exact h rfl)

/-- Is this character a lower-case hexadecimal digit (0-9 or a-f)? -/
def isLowerHexChar (c : Char) : Bool :=
  (48 ≤ c.toNat && c.toNat ≤ 57) || (97 ≤ c.toNat && c.toNat ≤ 102)

/-- Does this string consist only of lower-case hexadecimal digits? -/
def isLowerHexString (s : String) : Bool := s.data.all isLowerHexChar

/-! ## Theorems

First some validation and helper lemmas about the MD5 embedding, then one
theorem per specification claim (C1-C10), each with its witness or
counterexample where applicable. -/

set_option maxRecDepth 8000 in
/-- Validation of the MD5 embedding against a published test vector:
the empty message. -/
theorem md5_vector_empty :
    md5HexDigest (utf8Bytes "") = "d41d8cd98f00b204e9800998ecf8427e" := by rfl

set_option maxRecDepth 8000 in
/-- Validation of the MD5 embedding against a second test vector. -/
theorem md5_vector_fox :
    md5HexDigest (utf8Bytes "The quick brown fox jumps over the lazy dog") =
      "9e107d9d372bb6826bd81d3542a419d6" := by rfl

/-- Each of the sixteen values a nibble can take renders as a lower-case
hexadecimal character. -/
theorem hexDigit_lowerHex : ∀ m : Fin 16, isLowerHexChar (hexDigit m.val) = true := by
  decide

/-- Both characters of a byte's hex rendering are lower-case hex digits. -/
theorem byteHex_lowerHex (b : Nat) : (byteHex b).all isLowerHexChar = true := by
  have h1 := hexDigit_lowerHex ⟨b / 16 % 16, Nat.mod_lt _ (by norm_num)⟩
  have h2 := hexDigit_lowerHex ⟨b % 16, Nat.mod_lt _ (by norm_num)⟩
  simp [byteHex, h1, h2]

/-- A hex rendering consists of lower-case hex characters only. -/
theorem toHex_lowerHex (bs : List Nat) : isLowerHexString (toHex bs) = true := by
  induction bs with
  | nil => rfl
  | cons b tl ih =>
    have hb := byteHex_lowerHex b
    have ih2 : ((tl.flatMap byteHex).all isLowerHexChar) = true := ih
    show ((byteHex b ++ tl.flatMap byteHex).all isLowerHexChar) = true
    rw [List.all_append, hb, ih2]
    rfl

/-- A hex rendering has two characters per byte. -/
theorem toHex_length (bs : List Nat) : (toHex bs).length = 2 * bs.length := by
  induction bs with
  | nil => rfl
  | cons b tl ih =>
    have ih2 : (tl.flatMap byteHex).length = 2 * tl.length := ih
    show (byteHex b ++ tl.flatMap byteHex).length = 2 * (tl.length + 1)
    rw [List.length_append, ih2]
    simp [byteHex]
    omega

/-- An MD5 digest is 16 bytes. -/
theorem md5Digest_length (msg : List Nat) : (md5Digest msg).length = 16 := by rfl

/-- An MD5 hex digest consists of lower-case hex characters only. -/
theorem md5HexDigest_lowerHex (msg : List Nat) :
    isLowerHexString (md5HexDigest msg) = true := toHex_lowerHex _

/-- An MD5 hex digest is 32 characters long. -/
theorem md5HexDigest_length (msg : List Nat) : (md5HexDigest msg).length = 32 := by
  show (toHex (md5Digest msg)).length = 32
  rw [toHex_length, md5Digest_length]

/-- Whenever `login` runs to a Python return (no exception) past a first
round trip that delivered a session token, the auth state it leaves behind
is exactly that token together with `generate_response` of it. -/
theorem login_ok_state (user password : String) (st : AuthState) (r1 r2 : HResp)
    (out : AuthState × PyVal) (tok : PyVal)
    (h1 : r1.status = 200) (h2 : pySubscript r1.body "session" = .ok tok)
    (h : login user password st r1 r2 = .ok out) :
    out.1 = ⟨tok, .str (generate_response user tok password)⟩ := by
  unfold login at h
  split at h
  · rename_i hcond
    exact absurd h1 hcond
  · rw [h2] at h
    dsimp only at h
    split at h
    · cases h
      rfl
    · split at h
      · cases h
      · split at h
        · cases h
          rfl
        · split at h
          · cases h
          · cases h
            rfl

/-- Claim C1: for every username, password and session token T delivered by
the first login round trip, the client stores as its session response hash
the MD5 digest of the UTF-8 string "username:T:password", rendered as
lower-case hexadecimal (32 hex characters). -/
theorem C1_response_hash (user password T : String) (r2 : HResp)
    (out : AuthState × PyVal)
    (h : login user password initialAuthState
      ⟨200, .dict (.cons "session" (.str T) .nil)⟩ r2 = .ok out) :
    out.1.response =
      .str (md5HexDigest (utf8Bytes (user ++ ":" ++ T ++ ":" ++ password))) ∧
    isLowerHexString (md5HexDigest (utf8Bytes (user ++ ":" ++ T ++ ":" ++ password))) = true ∧
    (md5HexDigest (utf8Bytes (user ++ ":" ++ T ++ ":" ++ password))).length = 32 := by
  refine ⟨?_, md5HexDigest_lowerHex _, md5HexDigest_length _⟩
  have hst := login_ok_state user password initialAuthState
    ⟨200, .dict (.cons "session" (.str T) .nil)⟩ r2 out (.str T) rfl rfl h
  rw [hst]
  rfl

set_option maxRecDepth 8000 in
/-- Witness for C1 at user "admin", password "secret", token "abc": the
stored hash is the MD5 hex digest of "admin:abc:secret". -/
theorem C1_response_hash_witness :
    (({ blueiris_session := .str "abc",
        response := .str "021a25b081a8ed1d5d0d628264826e17" }, PyVal.pyNone) :
      AuthState × PyVal).1.response =
      .str (md5HexDigest (utf8Bytes ("admin" ++ ":" ++ "abc" ++ ":" ++ "secret"))) ∧
    isLowerHexString (md5HexDigest (utf8Bytes ("admin" ++ ":" ++ "abc" ++ ":" ++ "secret"))) = true ∧
    (md5HexDigest (utf8Bytes ("admin" ++ ":" ++ "abc" ++ ":" ++ "secret"))).length = 32 :=
  C1_response_hash "admin" "secret" "abc" ⟨500, .dict .nil⟩
    ({ blueiris_session := .str "abc",
       response := .str "021a25b081a8ed1d5d0d628264826e17" }, .pyNone) (by rfl)

/-- Claim C2 (amended: the transport check accepts exactly status 200, not
every 2xx status): when `cmd` gets a 200 response whose JSON carries a
`data` field, the caller receives that payload unchanged. -/
theorem C2_data_passthrough (kvs : PyDict) (d : PyVal)
    (h : kvs.lookup "data" = some d) :
    cmdResult ⟨200, .dict kvs⟩ = .ok d := by
  simp [cmdResult, h]

/-- Witness for C2 with an object, an array and a scalar payload. -/
theorem C2_data_passthrough_witness :
    cmdResult ⟨200, .dict (.cons "data" (.dict (.cons "k" (.pyInt 1) .nil)) .nil)⟩ =
      .ok (.dict (.cons "k" (.pyInt 1) .nil)) ∧
    cmdResult ⟨200, .dict (.cons "data" (.list (.cons (.pyInt 1) .nil)) .nil)⟩ =
      .ok (.list (.cons (.pyInt 1) .nil)) ∧
    cmdResult ⟨200, .dict (.cons "data" (.str "scalar") .nil)⟩ = .ok (.str "scalar") :=
  ⟨C2_data_passthrough _ _ (by decide), C2_data_passthrough _ _ (by decide),
   C2_data_passthrough _ _ (by decide)⟩

/-- Counterexample to C2 as stated: status 201 is 2xx and the body carries
`data: 5`, yet `cmd` returns the empty dict, not the payload (the code
compares the status against 200 exactly). -/
theorem C2_counterexample :
    200 ≤ 201 ∧ 201 < 300 ∧
    (PyDict.cons "data" (.pyInt 5) .nil).lookup "data" = some (.pyInt 5) ∧
    cmdResult ⟨201, .dict (.cons "data" (.pyInt 5) .nil)⟩ ≠ .ok (.pyInt 5) := by decide

/-- Claim C3 (amended: "2xx" must read "exactly 200" and "non-success
transport status" must read "non-200"): `cmd` returns the empty dict on a
non-200 status; on a 200 response with no `data` it returns the "None"
sentinel when `result` is "success" and the "Error" sentinel when a
`result` field is present with any other value. -/
theorem C3_sentinels :
    (∀ r : HResp, r.status ≠ 200 → cmdResult r = .ok (.dict .nil)) ∧
    (∀ kvs : PyDict, kvs.lookup "data" = Option.none →
      kvs.lookup "result" = some (.str "success") →
      cmdResult ⟨200, .dict kvs⟩ = .ok (.str "None")) ∧
    (∀ (kvs : PyDict) (res : PyVal), kvs.lookup "data" = Option.none →
      kvs.lookup "result" = some res → res ≠ .str "success" →
      cmdResult ⟨200, .dict kvs⟩ = .ok (.str "Error")) := by
  refine ⟨?_, ?_, ?_⟩
  · intro r hr
    simp [cmdResult, hr]
  · intro kvs h1 h2
    simp [cmdResult, h1, h2]
  · intro kvs res h1 h2 h3
    simp [cmdResult, h1, h2, h3]

/-- Witness for C3: one instance of each of the three branches. -/
theorem C3_sentinels_witness :
    cmdResult ⟨500, .dict .nil⟩ = .ok (.dict .nil) ∧
    cmdResult ⟨200, .dict (.cons "result" (.str "success") .nil)⟩ = .ok (.str "None") ∧
    cmdResult ⟨200, .dict (.cons "result" (.str "fail") .nil)⟩ = .ok (.str "Error") :=
  ⟨C3_sentinels.1 ⟨500, .dict .nil⟩ (by decide),
   C3_sentinels.2.1 (.cons "result" (.str "success") .nil) (by decide) (by decide),
   C3_sentinels.2.2 (.cons "result" (.str "fail") .nil) (.str "fail")
     (by decide) (by decide) (by decide)⟩

/-- Counterexample to C3 as stated: status 204 is 2xx with `result: success`
and no `data`, yet `cmd` returns the empty dict, not the "None" sentinel. -/
theorem C3_counterexample :
    (200 ≤ 204 ∧ 204 < 300) ∧
    (PyDict.cons "result" (.str "success") .nil).lookup "data" = Option.none ∧
    (PyDict.cons "result" (.str "success") .nil).lookup "result" =
      some (.str "success") ∧
    cmdResult ⟨204, .dict (.cons "result" (.str "success") .nil)⟩ = .ok (.dict .nil) ∧
    (Except.ok (PyVal.dict .nil) : Except PyErr PyVal) ≠ .ok (.str "None") := by decide

/-- Claim C4 (code bug): the claim says every failure is absorbed into a log
line plus a sentinel, but `cmd` on a 200 response whose JSON has neither
`data` nor `result` raises an uncaught KeyError (the fallback
`r.json()["result"]` sits inside the `except KeyError` handler and its own
KeyError propagates to the caller). -/
theorem C4_cmd_raises : cmdResult ⟨200, .dict .nil⟩ = .error .keyError := by decide

/-- Claim C5 (code bug): `login` itself absorbs a failed first round trip
(it logs and returns `None`), but `__init__` then calls
`session_info.get(...)` on that `None`, so construction raises
AttributeError instead of yielding an inspectable unauthenticated client. -/
theorem C5_login_failure_breaks_construction :
    login "user" "pass" initialAuthState ⟨500, .dict .nil⟩ ⟨200, .dict .nil⟩ =
      .ok (initialAuthState, .pyNone) ∧
    clientInit "user" "pass" ⟨500, .dict .nil⟩ ⟨200, .dict .nil⟩ ⟨200, .dict .nil⟩ =
      .error .attributeError := by decide

/-- Claim C6 (code bug): for a raw numeric code the envelope carries the
correct numeric value, but for a symbolic name such as "RED" the envelope
value is the Enum member object `Signal.RED` (the code omits `.value`), which
is not the numeric 0 the claim requires — and which `json.dumps` cannot
serialize, so the command cannot actually reach the network. -/
theorem C6_signal_envelope_member :
    signalHasValue (.str "RED") = true ∧
    set_signal (.str "RED") =
      .sent "status" [("signal", .enumMember "Signal" "RED" 0)] ∧
    (PyVal.enumMember "Signal" "RED" 0 ≠ .pyInt 0) ∧
    set_signal (.pyInt 0) = .sent "status" [("signal", .pyInt 0)] ∧
    set_signal (.pyInt 1) = .sent "status" [("signal", .pyInt 1)] ∧
    set_signal (.pyInt 2) = .sent "status" [("signal", .pyInt 2)] := by decide

/-- Claim C7 (amended: for `trigger` on a session without admin permission
the failure is logged as a warning about the admin requirement instead of an
error — the admin check runs before the camera-code check; in every other
listed case an error is logged): invalid inputs to `set_signal`,
`set_schedule`, `set_pofile`, `ptz` and `trigger` never put a command on the
network and are absorbed into one log line. -/
theorem C7_invalid_inputs_no_dispatch :
    (∀ sig : PyVal, signalHasValue sig = false →
      set_signal sig = .loggedError ∧ (set_signal sig).network = Option.none) ∧
    (∀ (schedules : List PyVal) (n : PyVal), n ∉ schedules →
      set_schedule schedules n = .loggedError ∧
        (set_schedule schedules n).network = Option.none) ∧
    (∀ (profiles : List PyVal) (n : PyVal), n ∉ profiles →
      set_pofile profiles n = .loggedError ∧
        (set_pofile profiles n).network = Option.none) ∧
    (∀ (camcodes : List PyVal) (cam act : PyVal),
      cam ∉ camcodes ∨ ptzHasValue act = false →
      ptz camcodes cam act = .loggedError ∧
        (ptz camcodes cam act).network = Option.none) ∧
    (∀ (admin : Bool) (camcodes : List PyVal) (cam : PyVal), cam ∉ camcodes →
      trigger admin camcodes cam = cond admin .loggedError .loggedWarning ∧
        (trigger admin camcodes cam).network = Option.none) := by
  refine ⟨?_, ?_, ?_, ?_, ?_⟩
  · intro sig hs
    simp [set_signal, hs, OpResult.network]
  · intro schedules n hn
    simp [set_schedule, hn, OpResult.network]
  · intro profiles n hn
    simp [set_pofile, hn, OpResult.network]
  · intro camcodes cam act hd
    rcases hd with hc | ha
    · simp [ptz, hc, OpResult.network]
    · by_cases hc : cam ∈ camcodes
      · simp [ptz, hc, ha, OpResult.network]
      · simp [ptz, hc, OpResult.network]
  · intro admin camcodes cam hc
    cases admin
    · simp [trigger, OpResult.network]
    · simp [trigger, hc, OpResult.network]

/-- Witness for C7: one invalid input per operation. -/
theorem C7_invalid_inputs_no_dispatch_witness :
    (set_signal (.pyInt 5) = .loggedError ∧
      (set_signal (.pyInt 5)).network = Option.none) ∧
    (set_schedule [] (.str "never") = .loggedError ∧
      (set_schedule [] (.str "never")).network = Option.none) ∧
    (set_pofile [] (.str "never") = .loggedError ∧
      (set_pofile [] (.str "never")).network = Option.none) ∧
    (ptz [] (.str "cam9") (.pyInt 0) = .loggedError ∧
      (ptz [] (.str "cam9") (.pyInt 0)).network = Option.none) ∧
    (trigger true [] (.str "cam9") = OpResult.loggedError ∧
      (trigger true [] (.str "cam9")).network = Option.none) :=
  ⟨C7_invalid_inputs_no_dispatch.1 (.pyInt 5) (by decide),
   C7_invalid_inputs_no_dispatch.2.1 [] (.str "never") (by decide),
   C7_invalid_inputs_no_dispatch.2.2.1 [] (.str "never") (by decide),
   C7_invalid_inputs_no_dispatch.2.2.2.1 [] (.str "cam9") (.pyInt 0)
     (Or.inl (by decide)),
   C7_invalid_inputs_no_dispatch.2.2.2.2 true [] (.str "cam9") (by decide)⟩

/-- Counterexample to C7 as stated: an invalid camera code passed to
`trigger` on a non-admin session issues no command but logs a warning, not
an error. -/
theorem C7_counterexample :
    (PyVal.str "bad") ∉ [PyVal.str "cam1"] ∧
    trigger false [.str "cam1"] (.str "bad") = .loggedWarning ∧
    OpResult.loggedWarning ≠ OpResult.loggedError := by decide

/-- A successful `update_camlist` stores the fetched response in `_camlist`. -/
theorem update_camlist_camlist (st : CState) (r : PyVal) (st1 : CState)
    (h : update_camlist st r = .ok st1) : st1.camlist = r := by
  unfold update_camlist at h
  split at h
  · simp at h
  · split at h
    · simp at h
    · split at h
      · simp at h
      · cases h
        rfl

/-- Claim C8 (amended: this holds provided the value the first read stores
differs from the UNKNOWN_LIST sentinel; a fetch that stores exactly the
sentinel leaves the accessor in the refetching state, see the
counterexample): each cached accessor fetches on a first read of an
unpopulated cache and, once populated, a second read without an intervening
refresh returns the same value and issues zero network calls. -/
theorem C8_cached_reads (st : CState) (r r2 : PyVal) :
    (st.logCache = UNKNOWN_LIST → r ≠ UNKNOWN_LIST →
      logRead st r = (r, update_log st r, 1) ∧
      logRead (update_log st r) r2 = (r, update_log st r, 0)) ∧
    (st.alertlist = UNKNOWN_LIST → r ≠ UNKNOWN_LIST →
      allAlertsRead st r = (r, update_alertlist st r, 1) ∧
      allAlertsRead (update_alertlist st r) r2 = (r, update_alertlist st r, 0)) ∧
    (st.cliplist = UNKNOWN_LIST → r ≠ UNKNOWN_LIST →
      allClipsRead st r = (r, update_cliplist st r, 1) ∧
      allClipsRead (update_cliplist st r) r2 = (r, update_cliplist st r, 0)) ∧
    (st.camlist = UNKNOWN_LIST → r ≠ UNKNOWN_LIST →
      ∀ st1 : CState, update_camlist st r = .ok st1 →
        camerasRead st r = .ok (st1.camcodes.zip st1.camnames, st1, 1) ∧
        camerasRead st1 r2 = .ok (st1.camcodes.zip st1.camnames, st1, 0)) := by
  refine ⟨?_, ?_, ?_, ?_⟩
  · intro h1 h2
    constructor
    · simp [logRead, update_log, h1]
    · simp [logRead, update_log, h2]
  · intro h1 h2
    constructor
    · simp [allAlertsRead, update_alertlist, h1]
    · simp [allAlertsRead, update_alertlist, h2]
  · intro h1 h2
    constructor
    · simp [allClipsRead, update_cliplist, h1]
    · simp [allClipsRead, update_cliplist, h2]
  · intro h1 h2 st1 hm
    have hcam := update_camlist_camlist st r st1 hm
    constructor
    · simp [camerasRead, h1, hm]
    · simp [camerasRead, hcam, h2]

/-- Witness for C8: from the fresh client state, a first read of each
accessor (server answering the empty list) fetches once and a second read
fetches zero times and returns the same value. -/
theorem C8_cached_reads_witness :
    (logRead initialCState (.list .nil) =
      (.list .nil, update_log initialCState (.list .nil), 1) ∧
     logRead (update_log initialCState (.list .nil)) UNKNOWN_LIST =
      (.list .nil, update_log initialCState (.list .nil), 0)) ∧
    (allAlertsRead initialCState (.list .nil) =
      (.list .nil, update_alertlist initialCState (.list .nil), 1) ∧
     allAlertsRead (update_alertlist initialCState (.list .nil)) UNKNOWN_LIST =
      (.list .nil, update_alertlist initialCState (.list .nil), 0)) ∧
    (allClipsRead initialCState (.list .nil) =
      (.list .nil, update_cliplist initialCState (.list .nil), 1) ∧
     allClipsRead (update_cliplist initialCState (.list .nil)) UNKNOWN_LIST =
      (.list .nil, update_cliplist initialCState (.list .nil), 0)) ∧
    (camerasRead initialCState (.list .nil) =
      .ok ([], CState.mk (.list .nil) [] [] UNKNOWN_LIST UNKNOWN_LIST UNKNOWN_LIST, 1) ∧
     camerasRead (CState.mk (.list .nil) [] [] UNKNOWN_LIST UNKNOWN_LIST UNKNOWN_LIST)
        UNKNOWN_LIST =
      .ok ([], CState.mk (.list .nil) [] [] UNKNOWN_LIST UNKNOWN_LIST UNKNOWN_LIST, 0)) :=
  ⟨(C8_cached_reads initialCState (.list .nil) UNKNOWN_LIST).1 (by decide) (by decide),
   (C8_cached_reads initialCState (.list .nil) UNKNOWN_LIST).2.1 (by decide) (by decide),
   (C8_cached_reads initialCState (.list .nil) UNKNOWN_LIST).2.2.1 (by decide) (by decide),
   (C8_cached_reads initialCState (.list .nil) UNKNOWN_LIST).2.2.2 (by decide) (by decide)
     (CState.mk (.list .nil) [] [] UNKNOWN_LIST UNKNOWN_LIST UNKNOWN_LIST) (by decide)⟩

/-- Counterexample to C8 as stated: when the `log` fetch is answered by
exactly the UNKNOWN_LIST sentinel, the first read stores it (the cache was
"populated") and the second read, with no refresh in between, still issues a
second network call. -/
theorem C8_counterexample :
    (logRead initialCState UNKNOWN_LIST).2.2 = 1 ∧
    (logRead initialCState UNKNOWN_LIST).2.1.logCache = UNKNOWN_LIST ∧
    (logRead (logRead initialCState UNKNOWN_LIST).2.1 UNKNOWN_LIST).2.2 = 1 := by decide

/-- Claim C9: whenever the status field `profile` resolves to -1 under
Python `int()` (including the string "-1"), the `profile` accessor returns
the "Undefined" sentinel and never indexes the profile list. -/
theorem C9_profile_undefined (status : PyVal) (profiles : List PyVal) (raw : PyVal)
    (h1 : pyGet status "profile" (.pyInt (-1)) = .ok raw)
    (h2 : pyIntOf raw = .ok (-1)) :
    profileRead status profiles = .ok (.str "Undefined") := by
  simp [profileRead, h1, h2]

/-- Witness for C9 at the status payload carrying the string "-1" and an
empty profile list (so any indexing would raise). -/
theorem C9_profile_undefined_witness :
    profileRead (.dict (.cons "profile" (.str "-1") .nil)) [] = .ok (.str "Undefined") :=
  C9_profile_undefined (.dict (.cons "profile" (.str "-1") .nil)) [] (.str "-1")
    (by decide) (by decide)

/-- Claim C10: `trigger` on a session whose login did not report admin
permission issues no network command and logs a warning, even for a valid
cached camera code — and also for an invalid one, showing the admin check
runs before the camera-code check. -/
theorem C10_trigger_requires_admin (camcodes : List PyVal) (cam : PyVal) :
    (cam ∈ camcodes →
      trigger false camcodes cam = .loggedWarning ∧
      (trigger false camcodes cam).network = Option.none) ∧
    (cam ∉ camcodes → trigger false camcodes cam = .loggedWarning) := by
  constructor
  · intro _
    exact ⟨rfl, rfl⟩
  · intro _
    rfl

/-- Witness for C10 at a valid and at an invalid camera code. -/
theorem C10_trigger_requires_admin_witness :
    (trigger false [PyVal.str "cam1"] (.str "cam1") = .loggedWarning ∧
      (trigger false [PyVal.str "cam1"] (.str "cam1")).network = Option.none) ∧
    trigger false [PyVal.str "cam1"] (.str "nope") = .loggedWarning :=
  ⟨(C10_trigger_requires_admin [.str "cam1"] (.str "cam1")).1 (by decide),
   (C10_trigger_requires_admin [.str "cam1"] (.str "nope")).2 (by decide)⟩

end BlueIris
